import Mathlib

/-!
Verification of the seqsearch parallel search-splitting and dispatch engine.

This file shallowly embeds the relevant parts of the repository:

* `seqsearch/search/__init__.py` — `SeqSearch.blast_params`,
  `SeqSearch.vsearch_params`, `SeqSearch.hmmer_params`,
  `SeqSearch.select_blast_algo`;
* `seqsearch/search/parallel.py` — the sizing logic of
  `ParallelSeqSearch.__init__`, `ParallelSeqSearch.join_outputs`,
  `ParallelSeqSearch.run_local`, `blast_queries`, `vsearch_queries`;
* `seqsearch/search/core.py` / `seqsearch/search/blast.py` — the cpu-count
  defaulting of `CoreSearch.__init__` and `BLASTquery.__init__`, and the
  filter precondition checks of `BLASTquery.filter`;
* `scripts/merge.py` — `merge_blast_xml`.

Python dicts are modelled as ordered association lists (`List (String × V)`),
Python strings in the XML merger as `List Char` so that all operations are
structurally recursive and kernel-evaluable.
-/

/-! ### Python dict model -/

/-- Python `d[k] = v`: overwrite in place (keeping insertion order) if the key
exists, otherwise append at the end. -/
def dictInsert {V : Type} (d : List (String × V)) (k : String) (v : V) :
    List (String × V) :=
  if (d.lookup k).isSome then
    d.map (fun p => if p.1 = k then (k, v) else p)
  else
    d ++ [(k, v)]

/-- Python `k in d`. -/
def hasKey {V : Type} (d : List (String × V)) (k : String) : Bool :=
  (d.lookup k).isSome

/-! ### SeqSearch parameter translation (`seqsearch/search/__init__.py`) -/

/-- The attributes of a `SeqSearch` object that the parameter-translation
methods read: the caller-supplied extra `params` dict and the `filtering`
dict. -/
structure SeqSearchState (V : Type) where
  params : List (String × V)
  filtering : List (String × V)

/-- `SeqSearch.blast_params`: copy `self.params`, then add `-evalue` from
`filtering['e_value']` and `-max_target_seqs` from `filtering['max_targets']`
when present.  Returns the computed dict together with the (unchanged) object
state, modelling that only the copy is mutated. -/
def blast_params {V : Type} (s : SeqSearchState V) :
    List (String × V) × SeqSearchState V :=
  let params := s.params
  let params :=
    match s.filtering.lookup "e_value" with
    | some v => dictInsert params "-evalue" v
    | none => params
  let params :=
    match s.filtering.lookup "max_targets" with
    | some v => dictInsert params "-max_target_seqs" v
    | none => params
  (params, s)

/-- `SeqSearch.vsearch_params`: copy `self.params`, then add `-maxaccepts`
from `filtering['max_targets']` when present. -/
def vsearch_params {V : Type} (s : SeqSearchState V) :
    List (String × V) × SeqSearchState V :=
  let params := s.params
  let params :=
    match s.filtering.lookup "max_targets" with
    | some v => dictInsert params "-maxaccepts" v
    | none => params
  (params, s)

/-- `SeqSearch.hmmer_params`: copy `self.params`, then add `-E` from
`filtering['e_value']` when present. -/
def hmmer_params {V : Type} (s : SeqSearchState V) :
    List (String × V) × SeqSearchState V :=
  let params := s.params
  let params :=
    match s.filtering.lookup "e_value" with
    | some v => dictInsert params "-E" v
    | none => params
  (params, s)

/-- `SeqSearch.select_blast_algo`: four `if` statements; a pair matching none
of them falls through and the method returns Python `None`. -/
def select_blast_algo (seq_type db_type : String) : Option String :=
  if seq_type = "nucl" ∧ db_type = "nucl" then some "blastn"
  else if seq_type = "prot" ∧ db_type = "prot" then some "blastp"
  else if seq_type = "nucl" ∧ db_type = "prot" then some "blastx"
  else if seq_type = "prot" ∧ db_type = "nucl" then some "tblastn"
  else none

/-- Python `str` applied to an optional string: `str(None) == "None"`. -/
def pyStr : Option String → String
  | some s => s
  | none => "None"

/-- The executable part of `BLASTquery.command`: a user-supplied executable
wins, otherwise legacy mode uses `blastall -p <algo>` and plus mode uses the
algorithm name itself (after `map(str, cmd)`). -/
def blastCommandHead (executable : Option String) (version : String)
    (algorithm : Option String) : List String :=
  match executable with
  | some e => [e]
  | none =>
    if version = "legacy" then ["blastall", "-p", pyStr algorithm]
    else [pyStr algorithm]

/-! ### Partition sizing (`ParallelSeqSearch.__init__`) -/

/-- `int(math.ceil(a / b))` for natural `a`, positive natural `b`. -/
def ceilDiv (a b : Nat) : Nat := (a + b - 1) / b

/-- Python truthiness of an optional integer argument (`None` and `0` are
falsy). -/
def truthyNat : Option Nat → Bool
  | none => false
  | some v => v != 0

/-- The sizing logic of `ParallelSeqSearch.__init__`: start from `None`, then
each supplied option overwrites `self.num_parts` in turn (`num_parts`, then
`part_size`, then `seqs_per_part`), and finally a default applies when all
are absent.  `part_size_bytes` is the byte count produced by
`humanfriendly.parse_size` (a supplied size string is truthy regardless of
its parsed value). -/
def determineNumParts (num_parts : Option Nat) (part_size_bytes : Option Nat)
    (seqs_per_part : Option Nat) (count_bytes count default_parts : Nat) :
    Nat :=
  let np : Option Nat := none
  let np := if truthyNat num_parts then num_parts else np
  let np :=
    match part_size_bytes with
    | some b => some (ceilDiv count_bytes b)
    | none => np
  let np :=
    match seqs_per_part with
    | some s => if s != 0 then some (ceilDiv count s) else np
    | none => np
  np.getD default_parts

/-- `ParallelSeqSearch.__init__` as a fallible constructor: the source never
raises on over-specified sizing options, so construction always succeeds
with the overwrite-resolved part count. -/
def parallelInit (num_parts : Option Nat) (part_size_bytes : Option Nat)
    (seqs_per_part : Option Nat) (count_bytes count default_parts : Nat) :
    Except String Nat :=
  .ok (determineNumParts num_parts part_size_bytes seqs_per_part
        count_bytes count default_parts)

/-! ### Dispatch and join (`ParallelSeqSearch.run_local` / `join_outputs`) -/

/-- One chunk job of a split run: the contents its external process leaves in
its own output file (a byte list) and the process exit code. -/
structure ChunkJob where
  output : List Nat
  exitCode : Nat

/-- `ParallelSeqSearch.join_outputs`: `cat part0 part1 ... > out`, i.e. the
byte-concatenation of the per-chunk output files in query-list (= chunk
index) order.  The method inspects no job status. -/
def join_outputs (jobs : List ChunkJob) : List Nat :=
  (jobs.map ChunkJob.output).flatten

/-- `ParallelSeqSearch.run_local`: with exactly one query the job is run
synchronously, so a non-zero exit raises out of `run_local` before the join;
with several queries each runs in a daemon thread whose exception is
swallowed, `wait` merely joins the thread, and `join_outputs` then runs
unconditionally. -/
def run_local (jobs : List ChunkJob) : Except String (List Nat) :=
  match jobs with
  | [j] =>
    if j.exitCode != 0 then .error "sh.ErrorReturnCode"
    else .ok (join_outputs jobs)
  | _ => .ok (join_outputs jobs)

/-! ### Completion order versus join order -/

/-- The per-chunk output files on disk after all jobs have completed, written
in completion order: job `i` writes its own file, keyed by its chunk index. -/
def writeOutputs (jobs : List (List Nat)) (order : List Nat) :
    List (Nat × List Nat) :=
  order.map (fun i => (i, jobs.getD i []))

/-- Reading chunk file `i` back from disk. -/
def readOutput (fs : List (Nat × List Nat)) (i : Nat) : List Nat :=
  (fs.lookup i).getD []

/-- The join over the on-disk files: concatenate chunk files `0, 1, ..., n-1`
in chunk-index order, as `join_outputs`'s `cat` invocation does. -/
def joinFromDisk (fs : List (Nat × List Nat)) (n : Nat) : List Nat :=
  ((List.range n).map (readOutput fs)).flatten

/-! ### Thread counts of split-run jobs
(`parallel.py`, `core.py`, `blast.py`) -/

/-- `BLASTquery.__init__` cpu defaulting: `multiprocessing.cpu_count()` when
`cpus is None`, otherwise the given value. -/
def blastCpus (cpus : Option Nat) (cpuCount : Nat) : Nat :=
  cpus.getD cpuCount

/-- `CoreSearch.__init__` cpu defaulting (inherited by `VSEARCHquery`):
`min(multiprocessing.cpu_count(), 32)` when `cpus is None`. -/
def coreCpus (cpus : Option Nat) (cpuCount : Nat) : Nat :=
  cpus.getD (min cpuCount 32)

/-- The third positional parameter of `CoreSearch.__init__` is `seq_type`;
`ParallelSeqSearch.vsearch_queries` erroneously passes the params dict
there, so the slot may hold either a string or a dict. -/
inductive SeqTypeSlot (V : Type) where
  | str (s : String)
  | dict (d : List (String × V))
deriving DecidableEq

/-- The fields of a constructed `BLASTquery` relevant here. -/
structure BLASTQueryObj (V : Type) where
  seq_type : SeqTypeSlot V
  params : List (String × V)
  cpus : Nat
  num : Option Nat

/-- The fields of a constructed `VSEARCHquery` relevant here. -/
structure VSEARCHQueryObj (V : Type) where
  seq_type : SeqTypeSlot V
  params : List (String × V)
  cpus : Nat

/-- `BLASTquery.__init__` (restricted to the modelled fields). -/
def mkBLASTquery {V : Type} (seq_type : SeqTypeSlot V)
    (params : Option (List (String × V))) (cpus : Option Nat)
    (num : Option Nat) (cpuCount : Nat) : BLASTQueryObj V :=
  { seq_type := seq_type
    params := params.getD []
    cpus := blastCpus cpus cpuCount
    num := num }

/-- `CoreSearch.__init__` as inherited by `VSEARCHquery` (restricted to the
modelled fields). -/
def mkVSEARCHquery {V : Type} (seq_type : SeqTypeSlot V)
    (params : Option (List (String × V))) (cpus : Option Nat)
    (cpuCount : Nat) : VSEARCHQueryObj V :=
  { seq_type := seq_type
    params := params.getD []
    cpus := coreCpus cpus cpuCount }

/-- `ParallelSeqSearch.blast_queries`: one `BLASTquery` per part, passing
`params = self.blast_params`, `cpus = 1` and `num = p.num`. -/
def blast_queries {V : Type} (s : SeqSearchState V) (seq_type : String)
    (parts : List Nat) (cpuCount : Nat) : List (BLASTQueryObj V) :=
  parts.map (fun p =>
    mkBLASTquery (SeqTypeSlot.str seq_type) (some (blast_params s).1)
      (some 1) (some p) cpuCount)

/-- `ParallelSeqSearch.vsearch_queries`:
`VSEARCHquery(p, self.database, self.vsearch_params)` — the params dict is
passed positionally into the `seq_type` slot, and `params`, `cpus` are left
at their defaults. -/
def vsearch_queries {V : Type} (s : SeqSearchState V)
    (parts : List Nat) (cpuCount : Nat) : List (VSEARCHQueryObj V) :=
  parts.map (fun _ =>
    mkVSEARCHquery (SeqTypeSlot.dict (vsearch_params s).1) none none cpuCount)

/-! ### The BLAST result filter check (`BLASTquery.filter`) -/

/-- Python `needle in hay` on strings, via character lists. -/
def containsSub (needle hay : List Char) : Bool :=
  needle.isPrefixOf hay ||
    match hay with
    | [] => false
    | _ :: t => containsSub needle t

/-- Python `needle in hay` on `String`. -/
def strContains (hay needle : String) : Bool :=
  containsSub needle.data hay.data

/-- The precondition checks at the top of `BLASTquery.filter`: for each of
`min_coverage` / `min_identity` present in `filtering`, look up
`self.params['-outfmt']` (a `KeyError` if absent) and raise when the needed
column (`qcovs` / `pident`) is not in the format string. -/
def blastFilterCheck {V : Type} (params : List (String × String))
    (filtering : List (String × V)) : Except String Unit :=
  if hasKey filtering "min_coverage" then
    match params.lookup "-outfmt" with
    | none => .error "KeyError: -outfmt"
    | some fmt =>
      if !(strContains fmt "qcovs") then
        .error "Cannot filter on minimum coverage because it was not included."
      else
        if hasKey filtering "min_identity" then
          match params.lookup "-outfmt" with
          | none => .error "KeyError: -outfmt"
          | some fmt2 =>
            if !(strContains fmt2 "pident") then
              .error "Cannot filter on minimum identity because it was not included."
            else .ok ()
        else .ok ()
  else
    if hasKey filtering "min_identity" then
      match params.lookup "-outfmt" with
      | none => .error "KeyError: -outfmt"
      | some fmt2 =>
        if !(strContains fmt2 "pident") then
          .error "Cannot filter on minimum identity because it was not included."
        else .ok ()
    else .ok ()

/-- Observable events of a search-then-filter session. -/
inductive Event where
  | invoke
  | filterError
  | filterOk
deriving DecidableEq

/-- A `SeqSearch` session that calls `run()` (which launches the external
search process) and then `filter()` (which performs the checks of
`BLASTquery.filter`).  No check happens at construction time:
`SeqSearch.validate` only asserts the input FASTA is non-empty. -/
def runThenFilter {V : Type} (params : List (String × String))
    (filtering : List (String × V)) : List Event :=
  Event.invoke ::
    (match blastFilterCheck params filtering with
     | .error _ => [Event.filterError]
     | .ok _ => [Event.filterOk])

/-! ### `merge_blast_xml` (`scripts/merge.py`)

A chunk file is a list of lines, each line a `List Char` including its
trailing newline (as Python `readline` yields them); `readline` at end of
file yields the empty string, which the model renders as the line list
running out.  Error messages keep the structure of the source messages; the
header-mismatch `raise` in the source interpolates `% path` into a format
string without a placeholder, so at runtime it raises a `TypeError` rather
than the intended `Exception` — either way the merge is aborted, which is
what the model's error case captures. -/

/-- Python `str.strip()` whitespace test. -/
def isPySpace (c : Char) : Bool :=
  c = ' ' || c = '\t' || c = '\n' || c = '\r' || c = '\x0b' || c = '\x0c'

/-- Python `str.strip()`. -/
def pyStrip (l : List Char) : List Char :=
  ((l.dropWhile isPySpace).reverse.dropWhile isPySpace).reverse

/-- The expected first header line. -/
def xmlDeclLine : List Char := "<?xml version=\"1.0\"?>".data

/-- The literal the stripped second line is sliced to 59 characters and
compared against. -/
def doctypeLit : List Char :=
  "<!DOCTYPE BlastOutput PUBLIC \"-//NCBI//NCBI BlastOutput/EN\"".data

/-- The substring whose first occurrence ends the header. -/
def iterationTagStr : List Char := "<Iteration>".data

/-- The tag the accumulated header must contain. -/
def blastOutputTag : List Char := "<BlastOutput>".data

/-- The substring at which per-chunk body streaming stops. -/
def closingIterTag : List Char := "</BlastOutput_iterations>".data

/-- The synthetic opening tag written for every chunk after the first. -/
def syntheticIterationLine : List Char := "    <Iteration>\n".data

/-- The shared closing markers written once at the very end. -/
def closingLines : List Char :=
  "  </BlastOutput_iterations>\n</BlastOutput>\n\n".data

/-- Error: `"BLAST XML file '%s' was empty"`. -/
def emptyMsg (path : String) : String :=
  "BLAST XML file " ++ path ++ " was empty"

/-- Error: `"BLAST file '%s' is not an XML file"`. -/
def notXmlMsg (path : String) : String :=
  "BLAST file " ++ path ++ " is not an XML file"

/-- Error: `"BLAST file '%s' is not a valid XML file"`. -/
def notValidMsg (path : String) : String :=
  "BLAST file " ++ path ++ " is not a valid XML file"

/-- Error: `"BLAST XML file '%s' ended prematurely"`. -/
def prematureMsg (path : String) : String :=
  "BLAST XML file " ++ path ++ " ended prematurely"

/-- Error: `"BLAST file '%s' has a too long a header"`. -/
def tooLongMsg (path : String) : String :=
  "BLAST file " ++ path ++ " has a too long a header"

/-- Error: the header lacks `<BlastOutput>`. -/
def badHeaderMsg (path : String) : String :=
  "BLAST XML file " ++ path ++ " header seems bad"

/-- Error on non-first-chunk header mismatch (a `TypeError` at runtime, see
the section comment; it names no path). -/
def mismatchMsg : String := "BLAST XML headers do not match"

/-- The `while True` header loop: append each line to the header; a line
containing `<Iteration>` ends the header; a header longer than 10000
characters is an error; running out of lines (readline returning the empty
string) is a premature end. -/
def readHeaderLoop (path : String) (header : List Char) :
    List (List Char) → Except String (List Char × List (List Char))
  | [] => .error (prematureMsg path)
  | line :: rest =>
    let header := header ++ line
    if containsSub iterationTagStr line then .ok (header, rest)
    else if header.length > 10000 then .error (tooLongMsg path)
    else readHeaderLoop path header rest

/-- Reading and checking one chunk file: first line must strip to the XML
declaration, second line must strip-and-slice to the DOCTYPE literal, the
header loop must terminate, and the accumulated header must contain
`<BlastOutput>`.  Returns the header and the remaining lines. -/
def processChunk (path : String) :
    List (List Char) → Except String (List Char × List (List Char))
  | [] => .error (emptyMsg path)
  | l0 :: rest =>
    if pyStrip l0 ≠ xmlDeclLine then .error (notXmlMsg path)
    else
      match rest with
      | [] => .error (notValidMsg path)
      | l1 :: rest2 =>
        if (pyStrip l1).take 59 ≠ doctypeLit then .error (notValidMsg path)
        else
          match readHeaderLoop path (l0 ++ l1) rest2 with
          | .error e => .error e
          | .ok (h, r) =>
            if !(containsSub blastOutputTag h) then .error (badHeaderMsg path)
            else .ok (h, r)

/-- The body written for one chunk: every remaining line up to (excluding)
the first containing `</BlastOutput_iterations>`; when no line contains the
marker, all remaining lines are written without complaint. -/
def chunkBody (rest : List (List Char)) : List Char :=
  (rest.takeWhile (fun l => !(containsSub closingIterTag l))).flatten

/-- Chunks after the first: each must process cleanly and have its header
agree with the first chunk's header on the first 300 characters
(`old_header[:300] != header[:300]`); it then contributes a synthetic
`<Iteration>` line and its body. -/
def mergeRest (oldHeader acc : List Char) :
    List (String × List (List Char)) → Except String (List Char)
  | [] => .ok (acc ++ closingLines)
  | (path, lines) :: cs =>
    match processChunk path lines with
    | .error e => .error e
    | .ok (h, r) =>
      if oldHeader.take 300 ≠ h.take 300 then .error mismatchMsg
      else mergeRest oldHeader (acc ++ syntheticIterationLine ++ chunkBody r) cs

/-- `merge_blast_xml`: the first chunk contributes its full header and its
body; the rest are merged by `mergeRest`; the closing markers are appended
once at the end. -/
def merge_blast_xml :
    List (String × List (List Char)) → Except String (List Char)
  | [] => .ok closingLines
  | (path, lines) :: cs =>
    match processChunk path lines with
    | .error e => .error e
    | .ok (h, r) => mergeRest h (h ++ chunkBody r) cs

/-! ### Helper lemmas -/

/-- Looking up any index present in a keyed write list recovers the value the
key determines, wherever the write occurs in the list. -/
theorem lookup_map_key {α : Type} (f : Nat → α) (l : List Nat) (i : Nat)
    (h : i ∈ l) : (l.map (fun j => (j, f j))).lookup i = some (f i) := by
  induction l with
  | nil => cases h
  | cons a t ih =>
    by_cases hia : i = a
    · subst hia
      simp [List.lookup]
    · have ht : i ∈ t := by
        cases h with
        | head => exact absurd rfl hia
        | tail _ h2 => exact h2
      have hne : (i == a) = false := beq_eq_false_iff_ne.mpr hia
      simpa [List.lookup, hne] using ih ht

/-- Reading a list back by positions `0, ..., length-1`. -/
theorem map_getD_range {α : Type} (l : List α) (d : α) :
    (List.range l.length).map (fun i => l.getD i d) = l := by
  induction l with
  | nil => rfl
  | cons a t ih =>
    rw [List.length_cons, List.range_succ_eq_map, List.map_cons, List.map_map]
    refine congrArg (a :: ·) ?_
    calc (List.range t.length).map ((fun i => (a :: t).getD i d) ∘ Nat.succ)
        = (List.range t.length).map (fun i => t.getD i d) :=
          List.map_congr_left (fun i _ => rfl)
      _ = t := ih

/-! ### C1 -/

/-- C1: for a single supplied sizing strategy, `ParallelSeqSearch.__init__`
computes the chunk count as the ceiling of the corresponding quotient: with a
byte target `b` the count `n` satisfies `count_bytes ≤ n * b < count_bytes + b`
(the defining property of `ceil(count_bytes / b)`), with a records target `s`
it satisfies `count ≤ n * s < count + s`, and an input of 10 sequences with
`seqs_per_part = 3` yields exactly 4 chunks. -/
theorem chunk_count_ceil :
    (∀ b count_bytes count d, 0 < b →
      count_bytes ≤ determineNumParts none (some b) none count_bytes count d * b ∧
      determineNumParts none (some b) none count_bytes count d * b < count_bytes + b) ∧
    (∀ s count_bytes count d, 0 < s →
      count ≤ determineNumParts none none (some s) count_bytes count d * s ∧
      determineNumParts none none (some s) count_bytes count d * s < count + s) ∧
    determineNumParts none none (some 3) 999 10 8 = 4 := by
  refine ⟨?_, ?_, by decide⟩
  · intro b cb c d hb
    show cb ≤ ceilDiv cb b * b ∧ ceilDiv cb b * b < cb + b
    unfold ceilDiv
    have h1 := Nat.div_add_mod (cb + b - 1) b
    have h2 := Nat.mod_lt (cb + b - 1) hb
    rw [Nat.mul_comm]
    omega
  · intro s cb c d hs
    obtain ⟨n, rfl⟩ : ∃ n, s = n + 1 := ⟨s - 1, by omega⟩
    show c ≤ ceilDiv c (n + 1) * (n + 1) ∧ ceilDiv c (n + 1) * (n + 1) < c + (n + 1)
    unfold ceilDiv
    have h1 := Nat.div_add_mod (c + (n + 1) - 1) (n + 1)
    have h2 := Nat.mod_lt (c + (n + 1) - 1) hs
    rw [Nat.mul_comm]
    omega

/-- Witness for C1: byte target 4 over 10 bytes, and record target 3 over 10
records (the spec's end-to-end scenario, giving 4 chunks). -/
theorem chunk_count_ceil_witness :
    (10 ≤ determineNumParts none (some 4) none 10 7 9 * 4 ∧
      determineNumParts none (some 4) none 10 7 9 * 4 < 10 + 4) ∧
    (10 ≤ determineNumParts none none (some 3) 0 10 9 * 3 ∧
      determineNumParts none none (some 3) 0 10 9 * 3 < 10 + 3) :=
  ⟨chunk_count_ceil.1 4 10 7 9 (by decide),
   chunk_count_ceil.2.1 3 0 10 9 (by decide)⟩

/-! ### C2 -/

/-- Counterexample to C2: a two-chunk run whose second job exits non-zero.
`run_local` still reports success and produces the combined output — the
failing job's thread exception is swallowed by `wait`, and `join_outputs`
checks no job status before concatenating. -/
theorem run_local_join_despite_failure :
    (ChunkJob.mk [3] 1).exitCode ≠ 0 ∧
    run_local [ChunkJob.mk [1, 2] 0, ChunkJob.mk [3] 1] = .ok [1, 2, 3] :=
  ⟨by decide, rfl⟩

/-- C2 (amended): in a split run with two or more chunks, `run_local`
always joins and produces the combined output, whatever the jobs' exit
codes; only a single-chunk run propagates a non-zero exit (as an exception
from the synchronous `run()`) and skips the join. -/
theorem run_local_failure_semantics (jobs : List ChunkJob) :
    (2 ≤ jobs.length → run_local jobs = .ok (join_outputs jobs)) ∧
    (∀ j, jobs = [j] → j.exitCode ≠ 0 →
      run_local jobs = .error "sh.ErrorReturnCode") := by
  constructor
  · intro hlen
    match jobs, hlen with
    | j1 :: j2 :: rest, _ => rfl
  · intro j hj hexit
    subst hj
    have : (j.exitCode != 0) = true := by
      cases h : j.exitCode with
      | zero => exact absurd h hexit
      | succ n => rfl
    show (if j.exitCode != 0 then Except.error "sh.ErrorReturnCode"
          else Except.ok (join_outputs [j])) = .error "sh.ErrorReturnCode"
    rw [this]
    rfl

/-- Witness for C2's amended theorem: the two-or-more branch at a concrete
two-job list and the single-chunk branch at a concrete failing job. -/
theorem run_local_failure_semantics_witness :
    run_local [ChunkJob.mk [1] 0, ChunkJob.mk [2] 0] =
      .ok (join_outputs [ChunkJob.mk [1] 0, ChunkJob.mk [2] 0]) ∧
    run_local [ChunkJob.mk [9] 2] = .error "sh.ErrorReturnCode" :=
  ⟨(run_local_failure_semantics [ChunkJob.mk [1] 0, ChunkJob.mk [2] 0]).1
      (by decide),
   (run_local_failure_semantics [ChunkJob.mk [9] 2]).2 (ChunkJob.mk [9] 2)
      rfl (by decide)⟩

/-! ### C3 -/

/-- C3: whatever order the jobs complete (any permutation of the chunk
indices), the files on disk are the same, and the join — which reads chunk
files `0, 1, ..., n-1` in chunk-index order, as `join_outputs`'s
`cat part0 part1 ...` does — byte-concatenates the per-chunk outputs in
chunk-index order. -/
theorem join_order_independent (jobs : List (List Nat)) (order : List Nat)
    (h : order.Perm (List.range jobs.length)) :
    joinFromDisk (writeOutputs jobs order) jobs.length = jobs.flatten := by
  unfold joinFromDisk
  have hmap : (List.range jobs.length).map
      (readOutput (writeOutputs jobs order)) =
      (List.range jobs.length).map (fun i => jobs.getD i []) := by
    refine List.map_congr_left ?_
    intro i hi
    have hmem : i ∈ order := h.mem_iff.2 hi
    unfold readOutput writeOutputs
    rw [lookup_map_key (fun j => jobs.getD j []) order i hmem]
    rfl
  rw [hmap, map_getD_range]

/-- Witness for C3: three chunk outputs completed in the order 2, 0, 1 still
join as chunk 0 ++ chunk 1 ++ chunk 2. -/
theorem join_order_independent_witness :
    joinFromDisk (writeOutputs [[1], [2, 3], [4]] [2, 0, 1]) 3 =
      [1, 2, 3, 4] :=
  join_order_independent [[1], [2, 3], [4]] [2, 0, 1] (by decide)

/-! ### C4 -/

/-- Counterexample to C4: the pair `("prot", "rna")` is outside the four
recognized combinations, yet `select_blast_algo` signals nothing — it falls
through and returns Python `None`, and the plus-mode command head is then
rendered as the literal string `"None"`. -/
theorem select_blast_algo_silent_none :
    select_blast_algo "prot" "rna" = none ∧
    blastCommandHead none "plus" (select_blast_algo "prot" "rna") =
      ["None"] := by
  exact ⟨by decide, by decide⟩

/-- C4 (amended): algorithm selection is total over the four recognized
(query type, database type) pairs and maps each to its distinct variant —
never a same-type default — but a pair outside the four yields Python `None`
with no signaled configuration error, and the plus-mode command head is then
the string `"None"`. -/
theorem select_blast_algo_cases :
    select_blast_algo "nucl" "nucl" = some "blastn" ∧
    select_blast_algo "prot" "prot" = some "blastp" ∧
    select_blast_algo "nucl" "prot" = some "blastx" ∧
    select_blast_algo "prot" "nucl" = some "tblastn" ∧
    (∀ q d : String, ¬(q = "nucl" ∧ d = "nucl") → ¬(q = "prot" ∧ d = "prot") →
      ¬(q = "nucl" ∧ d = "prot") → ¬(q = "prot" ∧ d = "nucl") →
      select_blast_algo q d = none ∧
      blastCommandHead none "plus" (select_blast_algo q d) = ["None"]) := by
  refine ⟨by decide, by decide, by decide, by decide, ?_⟩
  intro q d h1 h2 h3 h4
  have hsel : select_blast_algo q d = none := by
    unfold select_blast_algo
    rw [if_neg h1, if_neg h2, if_neg h3, if_neg h4]
  exact ⟨hsel, by rw [hsel]; rfl⟩

/-- Witness for C4's amended theorem: the unrecognized pair
`("prot", "rna")`. -/
theorem select_blast_algo_cases_witness :
    select_blast_algo "prot" "rna" = none ∧
    blastCommandHead none "plus" (select_blast_algo "prot" "rna") =
      ["None"] :=
  select_blast_algo_cases.2.2.2.2 "prot" "rna" (by decide) (by decide)
    (by decide) (by decide)

/-! ### C8 -/

/-- Counterexample to C8: both `num_parts = 5` and `seqs_per_part = 3` are
supplied (with 10 input records), yet construction succeeds — returning 4
parts, the value from `seqs_per_part`, which silently overwrote
`num_parts`. -/
theorem parallel_init_overspecified_ok :
    parallelInit (some 5) none (some 3) 1000 10 8 = .ok 4 ∧ (4 : Nat) ≠ 5 :=
  ⟨rfl, by decide⟩

/-- C8 (amended): supplying more than one of `num_parts`, `part_size`,
`seqs_per_part` raises no configuration error; the options are resolved by
overwrite order, `seqs_per_part` over `part_size` over `num_parts`. -/
theorem parallel_init_precedence (np ps ss : Option Nat)
    (cb c d : Nat) :
    (∀ s, ss = some s → s ≠ 0 →
      parallelInit np ps ss cb c d = .ok (ceilDiv c s)) ∧
    (∀ b, ps = some b → ss = none →
      parallelInit np ps ss cb c d = .ok (ceilDiv cb b)) ∧
    (∀ n, np = some n → n ≠ 0 → ps = none → ss = none →
      parallelInit np ps ss cb c d = .ok n) := by
  refine ⟨?_, ?_, ?_⟩
  · intro s hss hs
    subst hss
    have hbool : (s != 0) = true := by
      cases h : s with
      | zero => exact absurd h hs
      | succ m => rfl
    simp [parallelInit, determineNumParts, hbool]
  · intro b hps hss
    subst hps; subst hss
    rfl
  · intro n hnp hn hps hss
    subst hnp; subst hps; subst hss
    have hbool : (n != 0) = true := by
      cases h : n with
      | zero => exact absurd h hn
      | succ m => rfl
    simp [parallelInit, determineNumParts, truthyNat, hbool]

/-- Witness for C8's amended theorem: the over-specified construction of the
counterexample, resolved in favour of `seqs_per_part`. -/
theorem parallel_init_precedence_witness :
    parallelInit (some 5) none (some 3) 1000 10 8 = .ok (ceilDiv 10 3) :=
  (parallel_init_precedence (some 5) none (some 3) 1000 10 8).1 3 rfl
    (by decide)

/-! ### C9 -/

/-- C9 is contradicted by the code on the VSEARCH path:
`ParallelSeqSearch.vsearch_queries` omits `cpus = 1` (and even passes the
translated params dict positionally into the `seq_type` slot, so the
`-maxaccepts` flag is dropped), leaving each chunk job with the
`CoreSearch` default of `min(cpu_count, 32)` threads — here 8 on an 8-cpu
host — while the BLAST path does pin each chunk job to 1 thread. -/
theorem vsearch_split_job_threads :
    ((vsearch_queries (V := String)
        ⟨[], [("max_targets", "5")]⟩ [0, 1] 8).map VSEARCHQueryObj.cpus =
      [8, 8]) ∧
    ((vsearch_queries (V := String)
        ⟨[], [("max_targets", "5")]⟩ [0, 1] 8).map VSEARCHQueryObj.seq_type =
      [SeqTypeSlot.dict [("-maxaccepts", "5")],
       SeqTypeSlot.dict [("-maxaccepts", "5")]]) ∧
    ((vsearch_queries (V := String)
        ⟨[], [("max_targets", "5")]⟩ [0, 1] 8).map VSEARCHQueryObj.params =
      [[], []]) ∧
    ((blast_queries (V := String)
        ⟨[], []⟩ "nucl" [0, 1] 8).map BLASTQueryObj.cpus = [1, 1]) ∧
    (8 : Nat) ≠ 1 := by
  refine ⟨rfl, rfl, rfl, rfl, by decide⟩

/-! ### Lookup behaviour of the dict model -/

/-- Overwriting an existing key makes it map to the new value. -/
theorem lookup_map_overwrite {V : Type} (k : String) (v : V)
    (d : List (String × V)) (h : (d.lookup k).isSome = true) :
    (d.map (fun p => if p.1 = k then (k, v) else p)).lookup k = some v := by
  induction d with
  | nil => simp [List.lookup] at h
  | cons p t ih =>
    obtain ⟨a, b⟩ := p
    by_cases hak : a = k
    · subst hak
      have hmap : List.map (fun p => if p.1 = a then (a, v) else p)
          ((a, b) :: t) =
          (a, v) :: List.map (fun p => if p.1 = a then (a, v) else p) t := by
        simp
      rw [hmap]
      simp [List.lookup]
    · have hk : (k == a) = false := beq_eq_false_iff_ne.mpr (Ne.symm hak)
      have hmap : List.map (fun p => if p.1 = k then (k, v) else p)
          ((a, b) :: t) =
          (a, b) :: List.map (fun p => if p.1 = k then (k, v) else p) t := by
        simp [hak]
      have ht : (t.lookup k).isSome = true := by
        simpa [List.lookup, hk] using h
      rw [hmap]
      simpa [List.lookup, hk] using ih ht

/-- Appending a fresh key at the end makes it found there. -/
theorem lookup_append_single {V : Type} (k : String) (v : V)
    (d : List (String × V)) (h : d.lookup k = none) :
    (d ++ [(k, v)]).lookup k = some v := by
  induction d with
  | nil => simp [List.lookup]
  | cons p t ih =>
    obtain ⟨a, b⟩ := p
    by_cases hak : (k == a) = true
    · simp [List.lookup, hak] at h
    · have hk : (k == a) = false := by
        cases hx : (k == a) with
        | true => exact absurd hx hak
        | false => rfl
      have ht : t.lookup k = none := by simpa [List.lookup, hk] using h
      simpa [List.lookup, hk] using ih ht

/-- `dictInsert` makes the inserted key map to the inserted value. -/
theorem lookup_dictInsert_self {V : Type} (d : List (String × V))
    (k : String) (v : V) : (dictInsert d k v).lookup k = some v := by
  unfold dictInsert
  by_cases h : (d.lookup k).isSome = true
  · rw [if_pos h]
    exact lookup_map_overwrite k v d h
  · rw [if_neg h]
    refine lookup_append_single k v d ?_
    cases hx : d.lookup k with
    | none => rfl
    | some w => rw [hx] at h; exact absurd rfl h

/-- Overwriting key `k` leaves lookups of any other key unchanged. -/
theorem lookup_map_overwrite_other {V : Type} (k q : String) (v : V)
    (hne : q ≠ k) (d : List (String × V)) :
    (d.map (fun p => if p.1 = k then (k, v) else p)).lookup q = d.lookup q := by
  induction d with
  | nil => rfl
  | cons p t ih =>
    obtain ⟨a, b⟩ := p
    by_cases hak : a = k
    · subst hak
      have hmap : List.map (fun p => if p.1 = a then (a, v) else p)
          ((a, b) :: t) =
          (a, v) :: List.map (fun p => if p.1 = a then (a, v) else p) t := by
        simp
      have hq : (q == a) = false := beq_eq_false_iff_ne.mpr hne
      rw [hmap]
      simpa [List.lookup, hq] using ih
    · have hmap : List.map (fun p => if p.1 = k then (k, v) else p)
          ((a, b) :: t) =
          (a, b) :: List.map (fun p => if p.1 = k then (k, v) else p) t := by
        simp [hak]
      rw [hmap]
      cases hqa : (q == a) with
      | true => simp [List.lookup, hqa]
      | false => simpa [List.lookup, hqa] using ih

/-- Appending `(k, v)` at the end leaves lookups of any other key
unchanged. -/
theorem lookup_append_single_other {V : Type} (k q : String) (v : V)
    (hne : q ≠ k) (d : List (String × V)) :
    (d ++ [(k, v)]).lookup q = d.lookup q := by
  induction d with
  | nil =>
    have hq : (q == k) = false := beq_eq_false_iff_ne.mpr hne
    simp [List.lookup, hq]
  | cons p t ih =>
    obtain ⟨a, b⟩ := p
    cases hqa : (q == a) with
    | true => simp [List.lookup, hqa]
    | false => simpa [List.lookup, hqa] using ih

/-- `dictInsert` leaves every other key's lookup unchanged. -/
theorem lookup_dictInsert_other {V : Type} (d : List (String × V))
    (k q : String) (v : V) (hne : q ≠ k) :
    (dictInsert d k v).lookup q = d.lookup q := by
  unfold dictInsert
  by_cases h : (d.lookup k).isSome = true
  · rw [if_pos h]
    exact lookup_map_overwrite_other k q v hne d
  · rw [if_neg h]
    exact lookup_append_single_other k q v hne d

/-! ### C5 -/

/-- C5: the translated parameter dicts map the abstract filter names exactly
as specified — BLAST: `e_value` to `-evalue` and `max_targets` to
`-max_target_seqs`; VSEARCH: `max_targets` to `-maxaccepts` and nothing
else; HMMER: `e_value` to `-E` — every other key looks up exactly as in the
caller's `params`, and with the relevant filters absent the translated dict
is the `params` copy itself (no flag added). -/
theorem param_translation_flags {V : Type} (s : SeqSearchState V) :
    (∀ v, s.filtering.lookup "e_value" = some v →
      (blast_params s).1.lookup "-evalue" = some v) ∧
    (∀ v, s.filtering.lookup "max_targets" = some v →
      (blast_params s).1.lookup "-max_target_seqs" = some v) ∧
    (∀ k, k ≠ "-evalue" → k ≠ "-max_target_seqs" →
      (blast_params s).1.lookup k = s.params.lookup k) ∧
    (s.filtering.lookup "e_value" = none →
      s.filtering.lookup "max_targets" = none →
      (blast_params s).1 = s.params) ∧
    (∀ v, s.filtering.lookup "max_targets" = some v →
      (vsearch_params s).1.lookup "-maxaccepts" = some v) ∧
    (∀ k, k ≠ "-maxaccepts" →
      (vsearch_params s).1.lookup k = s.params.lookup k) ∧
    (s.filtering.lookup "max_targets" = none →
      (vsearch_params s).1 = s.params) ∧
    (∀ v, s.filtering.lookup "e_value" = some v →
      (hmmer_params s).1.lookup "-E" = some v) ∧
    (∀ k, k ≠ "-E" → (hmmer_params s).1.lookup k = s.params.lookup k) ∧
    (s.filtering.lookup "e_value" = none →
      (hmmer_params s).1 = s.params) := by
  refine ⟨?_, ?_, ?_, ?_, ?_, ?_, ?_, ?_, ?_, ?_⟩
  · intro v hv
    cases hmax : s.filtering.lookup "max_targets" with
    | none =>
      simp only [blast_params, hv, hmax]
      exact lookup_dictInsert_self s.params "-evalue" v
    | some w =>
      simp only [blast_params, hv, hmax]
      rw [lookup_dictInsert_other _ "-max_target_seqs" "-evalue" w
        (by decide)]
      exact lookup_dictInsert_self s.params "-evalue" v
  · intro v hv
    cases hev : s.filtering.lookup "e_value" with
    | none =>
      simp only [blast_params, hv, hev]
      exact lookup_dictInsert_self s.params "-max_target_seqs" v
    | some w =>
      simp only [blast_params, hv, hev]
      exact lookup_dictInsert_self _ "-max_target_seqs" v
  · intro k hk1 hk2
    cases hev : s.filtering.lookup "e_value" with
    | none =>
      cases hmax : s.filtering.lookup "max_targets" with
      | none => simp only [blast_params, hev, hmax]
      | some w =>
        simp only [blast_params, hev, hmax]
        exact lookup_dictInsert_other s.params "-max_target_seqs" k w hk2
    | some u =>
      cases hmax : s.filtering.lookup "max_targets" with
      | none =>
        simp only [blast_params, hev, hmax]
        exact lookup_dictInsert_other s.params "-evalue" k u hk1
      | some w =>
        simp only [blast_params, hev, hmax]
        rw [lookup_dictInsert_other _ "-max_target_seqs" k w hk2]
        exact lookup_dictInsert_other s.params "-evalue" k u hk1
  · intro hev hmax
    simp only [blast_params, hev, hmax]
  · intro v hv
    simp only [vsearch_params, hv]
    exact lookup_dictInsert_self s.params "-maxaccepts" v
  · intro k hk
    cases hmax : s.filtering.lookup "max_targets" with
    | none => simp only [vsearch_params, hmax]
    | some w =>
      simp only [vsearch_params, hmax]
      exact lookup_dictInsert_other s.params "-maxaccepts" k w hk
  · intro hmax
    simp only [vsearch_params, hmax]
  · intro v hv
    simp only [hmmer_params, hv]
    exact lookup_dictInsert_self s.params "-E" v
  · intro k hk
    cases hev : s.filtering.lookup "e_value" with
    | none => simp only [hmmer_params, hev]
    | some w =>
      simp only [hmmer_params, hev]
      exact lookup_dictInsert_other s.params "-E" k w hk
  · intro hev
    simp only [hmmer_params, hev]

/-- Witness for C5: a concrete `SeqSearch` with `params = {"-word_size": 4}`
and `filtering = {e_value, max_targets}`, instantiating the BLAST, VSEARCH
and HMMER mappings and the untouched-key clause. -/
theorem param_translation_flags_witness :
    (blast_params (V := Nat)
      ⟨[("-word_size", 4)], [("e_value", 10), ("max_targets", 5)]⟩).1.lookup
        "-evalue" = some 10 ∧
    (blast_params (V := Nat)
      ⟨[("-word_size", 4)], [("e_value", 10), ("max_targets", 5)]⟩).1.lookup
        "-max_target_seqs" = some 5 ∧
    (blast_params (V := Nat)
      ⟨[("-word_size", 4)], [("e_value", 10), ("max_targets", 5)]⟩).1.lookup
        "-word_size" = some 4 ∧
    (vsearch_params (V := Nat)
      ⟨[("-word_size", 4)], [("e_value", 10), ("max_targets", 5)]⟩).1.lookup
        "-maxaccepts" = some 5 ∧
    (hmmer_params (V := Nat)
      ⟨[("-word_size", 4)], [("e_value", 10), ("max_targets", 5)]⟩).1.lookup
        "-E" = some 10 ∧
    (hmmer_params (V := Nat)
      ⟨[("-word_size", 4)], [("max_targets", 5)]⟩).1 = [("-word_size", 4)] := by
  refine ⟨(param_translation_flags _).1 10 rfl,
    (param_translation_flags _).2.1 5 rfl,
    ?_,
    (param_translation_flags _).2.2.2.2.1 5 rfl,
    (param_translation_flags _).2.2.2.2.2.2.2.1 10 rfl,
    (param_translation_flags _).2.2.2.2.2.2.2.2.2 rfl⟩
  have h := (param_translation_flags (V := Nat)
    ⟨[("-word_size", 4)], [("e_value", 10), ("max_targets", 5)]⟩).2.2.1
    "-word_size" (by decide) (by decide)
  rw [h]
  rfl

/-! ### C10 -/

/-- C10: evaluating the translated parameter dicts leaves the object state —
the caller-supplied `params` mapping and the `filtering` mapping —
unchanged: each method works on `self.params.copy()` and mutates only the
copy, which the embedding renders by threading the state through
unchanged. -/
theorem param_translation_frame {V : Type} (s : SeqSearchState V) :
    (blast_params s).2 = s ∧ (vsearch_params s).2 = s ∧
    (hmmer_params s).2 = s ∧ (blast_params s).2.params = s.params ∧
    (blast_params s).2.filtering = s.filtering :=
  ⟨rfl, rfl, rfl, rfl, rfl⟩

/-! ### C6 -/

/-- Counterexample to C6: with `min_coverage` requested and `-outfmt = "6"`
(no `qcovs` column), the session trace is `[invoke, filterError]` — the
external search process is invoked first and the diagnostic is only raised
afterwards, when `filter()` runs its checks; nothing fails fast before the
invocation. -/
theorem filter_check_after_invoke :
    runThenFilter (V := String) [("-outfmt", "6")] [("min_coverage", "0.5")] =
      [Event.invoke, Event.filterError] ∧
    Event.invoke ∈
      runThenFilter (V := String) [("-outfmt", "6")] [("min_coverage", "0.5")] := by
  refine ⟨by decide, ?_⟩
  rw [(by decide : runThenFilter (V := String) [("-outfmt", "6")]
    [("min_coverage", "0.5")] = [Event.invoke, Event.filterError])]
  exact List.mem_cons_self _ _

/-- C6 (amended): requesting `min_coverage` (resp. `min_identity`) when the
`-outfmt` parameter lacks the `qcovs` (resp. `pident`) column does raise a
clear diagnostic — the filter is never silently ignored — but the check
happens inside `filter()`, i.e. after `run()` has already invoked the
external search process, so the trace is always `invoke` followed by
`filterError`. -/
theorem filter_check_semantics {V : Type} (params : List (String × String))
    (filtering : List (String × V)) (fmt : String) :
    (∀ e, blastFilterCheck params filtering = .error e →
      runThenFilter params filtering = [Event.invoke, Event.filterError]) ∧
    (hasKey filtering "min_coverage" = true →
      params.lookup "-outfmt" = some fmt → strContains fmt "qcovs" = false →
      blastFilterCheck params filtering =
        .error "Cannot filter on minimum coverage because it was not included.") ∧
    (hasKey filtering "min_coverage" = false →
      hasKey filtering "min_identity" = true →
      params.lookup "-outfmt" = some fmt → strContains fmt "pident" = false →
      blastFilterCheck params filtering =
        .error "Cannot filter on minimum identity because it was not included.") := by
  refine ⟨?_, ?_, ?_⟩
  · intro e he
    unfold runThenFilter
    rw [he]
  · intro hcov hfmt hq
    unfold blastFilterCheck
    rw [if_pos hcov, hfmt]
    simp [hq]
  · intro hcov hid hfmt hp
    unfold blastFilterCheck
    rw [if_neg (by rw [hcov]; exact Bool.false_ne_true), if_pos hid, hfmt]
    simp [hp]

/-- Witness for C6's amended theorem: the counterexample configuration for
the coverage clause, and an identity-only configuration for the identity
clause. -/
theorem filter_check_semantics_witness :
    runThenFilter (V := String) [("-outfmt", "6")] [("min_coverage", "0.5")] =
      [Event.invoke, Event.filterError] ∧
    blastFilterCheck (V := String) [("-outfmt", "6")] [("min_coverage", "0.5")] =
      .error "Cannot filter on minimum coverage because it was not included." ∧
    blastFilterCheck (V := String) [("-outfmt", "6 qcovs")]
      [("min_identity", "0.9")] =
      .error "Cannot filter on minimum identity because it was not included." := by
  have hcheck : blastFilterCheck (V := String) [("-outfmt", "6")]
      [("min_coverage", "0.5")] =
      .error "Cannot filter on minimum coverage because it was not included." :=
    (filter_check_semantics [("-outfmt", "6")] [("min_coverage", "0.5")]
      "6").2.1 (by decide) rfl (by decide)
  refine ⟨(filter_check_semantics [("-outfmt", "6")] [("min_coverage", "0.5")]
      "6").1 _ hcheck, hcheck,
    (filter_check_semantics [("-outfmt", "6 qcovs")]
      [("min_identity", "0.9")] "6 qcovs").2.2 (by decide) (by decide) rfl
      (by decide)⟩

/-! ### C7 -/

/-- A 250-character filler header line, used to push chunk headers past the
300-character comparison window. -/
def xmlFillerLine : List Char := List.replicate 250 'a' ++ ['\n']

/-- A synthetic, well-formed BLAST XML chunk file whose header contains the
line `tag` at character offset 347 — beyond the 300-character window the
merger compares. -/
def xmlChunkLines (tag : String) : List (List Char) :=
  ["<?xml version=\"1.0\"?>\n".data,
   "<!DOCTYPE BlastOutput PUBLIC \"-//NCBI//NCBI BlastOutput/EN\" \"d\">\n".data,
   "<BlastOutput>\n".data,
   xmlFillerLine,
   (tag ++ "\n").data,
   "  <Iteration>\n".data,
   "body\n".data,
   "</BlastOutput_iterations>\n".data,
   "</BlastOutput>\n".data]

set_option maxRecDepth 40000 in
/-- Counterexample to C7: two chunk files whose headers differ (at offset
347, past the declared 300-character comparison window) are merged without
any error — `merge_blast_xml` compares only `header[:300]`, so a header
difference beyond that window is not rejected. -/
theorem merge_accepts_header_diff_beyond_window :
    (processChunk "partA" (xmlChunkLines "AAAA")).toOption.map Prod.fst ≠
      (processChunk "partB" (xmlChunkLines "BBBB")).toOption.map Prod.fst ∧
    (processChunk "partA" (xmlChunkLines "AAAA")).isOk = true ∧
    (processChunk "partB" (xmlChunkLines "BBBB")).isOk = true ∧
    (merge_blast_xml [("partA", xmlChunkLines "AAAA"),
      ("partB", xmlChunkLines "BBBB")]).isOk = true := by
  exact ⟨by decide, by decide, by decide, by decide⟩

/-- The header loop fails only by running out of lines or by exceeding the
10000-character bound. -/
theorem readHeaderLoop_error (path : String) :
    ∀ (lines : List (List Char)) (header : List Char) (e : String),
      readHeaderLoop path header lines = .error e →
      e = prematureMsg path ∨ e = tooLongMsg path := by
  intro lines
  induction lines with
  | nil =>
    intro header e h
    injection h with h2
    exact Or.inl h2.symm
  | cons line rest ih =>
    intro header e h
    simp only [readHeaderLoop] at h
    split at h
    · exact Except.noConfusion h
    · split at h
      · injection h with h2
        exact Or.inr h2.symm
      · exact ih _ e h

/-- Every failure of `processChunk` is one of the six descriptive errors,
each built around the offending chunk's path. -/
theorem processChunk_error (path : String) (lines : List (List Char))
    (e : String) (h : processChunk path lines = .error e) :
    e = emptyMsg path ∨ e = notXmlMsg path ∨ e = notValidMsg path ∨
    e = prematureMsg path ∨ e = tooLongMsg path ∨ e = badHeaderMsg path := by
  cases lines with
  | nil =>
    injection h with h2
    exact Or.inl h2.symm
  | cons l0 rest =>
    cases rest with
    | nil =>
      simp only [processChunk] at h
      split at h
      · injection h with h2
        exact Or.inr (Or.inl h2.symm)
      · injection h with h2
        exact Or.inr (Or.inr (Or.inl h2.symm))
    | cons l1 rest2 =>
      simp only [processChunk] at h
      split at h
      · injection h with h2
        exact Or.inr (Or.inl h2.symm)
      · split at h
        · injection h with h2
          exact Or.inr (Or.inr (Or.inl h2.symm))
        · cases hrl : readHeaderLoop path (l0 ++ l1) rest2 with
          | error e2 =>
            rw [hrl] at h
            injection h with h2
            rcases readHeaderLoop_error path rest2 (l0 ++ l1) e2 hrl with
              h3 | h3
            · exact Or.inr (Or.inr (Or.inr (Or.inl (h2 ▸ h3))))
            · exact Or.inr (Or.inr (Or.inr (Or.inr (Or.inl (h2 ▸ h3)))))
          | ok pr =>
            obtain ⟨hh, rr⟩ := pr
            rw [hrl] at h
            simp only [] at h
            split at h
            · injection h with h2
              exact Or.inr (Or.inr (Or.inr (Or.inr (Or.inr h2.symm))))
            · exact Except.noConfusion h

/-- C7 (amended): the joiner rejects a non-first chunk exactly when its
header's first 300 characters differ from the first chunk's — a difference
confined beyond the 300-character comparison window is accepted — and an
empty chunk, a missing or malformed XML header, a header running past 10000
characters or a file ending inside its header all abort the join with a
descriptive error built around the offending chunk's path, which propagates
whether the chunk is first or not.  (The header-mismatch error itself names
no path: the source interpolates `% path` into a placeholder-free format
string, itself a `TypeError` at runtime.) -/
theorem merge_join_integrity :
    (∀ path, processChunk path [] = .error (emptyMsg path)) ∧
    (∀ path lines e, processChunk path lines = .error e →
      e = emptyMsg path ∨ e = notXmlMsg path ∨ e = notValidMsg path ∨
      e = prematureMsg path ∨ e = tooLongMsg path ∨ e = badHeaderMsg path) ∧
    (∀ path lines cs e, processChunk path lines = .error e →
      merge_blast_xml ((path, lines) :: cs) = .error e) ∧
    (∀ old acc path lines cs e, processChunk path lines = .error e →
      mergeRest old acc ((path, lines) :: cs) = .error e) ∧
    (∀ old acc path lines cs h r, processChunk path lines = .ok (h, r) →
      old.take 300 ≠ h.take 300 →
      mergeRest old acc ((path, lines) :: cs) = .error mismatchMsg) ∧
    (∀ old acc path lines cs h r, processChunk path lines = .ok (h, r) →
      old.take 300 = h.take 300 →
      mergeRest old acc ((path, lines) :: cs) =
        mergeRest old (acc ++ syntheticIterationLine ++ chunkBody r) cs) := by
  refine ⟨fun path => rfl, processChunk_error, ?_, ?_, ?_, ?_⟩
  · intro path lines cs e hpc
    simp only [merge_blast_xml, hpc]
  · intro old acc path lines cs e hpc
    simp only [mergeRest, hpc]
  · intro old acc path lines cs h r hpc hne
    simp only [mergeRest, hpc]
    rw [if_pos hne]
  · intro old acc path lines cs h r hpc heq
    simp only [mergeRest, hpc]
    rw [if_neg (not_not_intro heq)]

set_option maxRecDepth 40000 in
/-- Witness for C7's amended theorem: an empty chunk file propagating its
descriptive error through a merge, and a header mismatch within the
300-character window rejected by `mergeRest`. -/
theorem merge_join_integrity_witness :
    merge_blast_xml [("partX", [])] = .error (emptyMsg "partX") ∧
    (emptyMsg "partX" = emptyMsg "partX" ∨
      emptyMsg "partX" = notXmlMsg "partX" ∨
      emptyMsg "partX" = notValidMsg "partX" ∨
      emptyMsg "partX" = prematureMsg "partX" ∨
      emptyMsg "partX" = tooLongMsg "partX" ∨
      emptyMsg "partX" = badHeaderMsg "partX") ∧
    mergeRest [] [] [("partY", xmlChunkLines "AAAA")] = .error mismatchMsg := by
  refine ⟨merge_join_integrity.2.2.1 "partX" [] [] (emptyMsg "partX")
      (merge_join_integrity.1 "partX"),
    merge_join_integrity.2.1 "partX" [] (emptyMsg "partX")
      (merge_join_integrity.1 "partX"),
    merge_join_integrity.2.2.2.2.1 [] [] "partY" (xmlChunkLines "AAAA")
      [] _ _ rfl (by decide)⟩
